import Mathlib

/-!
Verification of the approval-reconciliation state machine in
src/lib/hooks/useAuth.ts (the loadProfile effect of the useAuth hook).

The reconciler is embedded shallowly:

* UserProfile mirrors the UserProfile interface (is_approved is tri-state,
  modelled as Option Bool with none standing for null/undefined).
* PendingUser mirrors a row of the pending_users table; status is kept as a
  String because the source compares it against string literals.
* Store models the backing relational store: the profiles and pending_users
  tables as lists keyed by id (the data model keeps at most one row per id),
  plus two failure sets modelling ids whose select call errors.  The source
  destructures only the data field of the supabase response, so a failed
  fetch and an empty fetch both surface to the code as a null data value;
  FetchResult.dataOf performs exactly that destructuring.
* loadProfile translates the loadProfile closure branch by branch.  It
  returns the ordered list of observable actions (state setters, store
  calls, session revoke, toast notifications, navigations) together with
  the store as left behind by the best-effort update writes.
* applyEvents replays the state-setter events onto the exposed snapshot
  (profile, isApproved, isPendingApproval) in execution order, last write
  wins, which is how the framework commits the setter calls.
-/

structure UserProfile where
  id : String
  full_name : Option String
  department : Option String
  email : Option String
  is_approved : Option Bool
deriving DecidableEq

structure PendingUser where
  id : String
  status : String
deriving DecidableEq

structure AuthUser where
  id : String
  email : Option String
deriving DecidableEq

structure Toast where
  title : String
  description : String
  destructive : Bool
  duration : Option Nat
deriving DecidableEq

/-- Toast shown in the two rejection branches of the source. -/
def rejectedToast : Toast :=
  { title := "Access Denied"
    description := "Your account has been rejected by an administrator."
    destructive := true
    duration := none }

/-- Toast shown in the pending-approval branch of the source. -/
def pendingToast : Toast :=
  { title := "Account Pending Approval"
    description := "Your account is pending administrator approval. You\x27ll be notified when your account is approved."
    destructive := false
    duration := some 6000 }

inductive Event where
  | fetchProfileEv (uid : String)
  | setProfileEv (p : Option UserProfile)
  | setIsApprovedEv (v : Option Bool)
  | setIsPendingApprovalEv (v : Bool)
  | fetchPendingEv (uid : String)
  | updateProfileEv (uid : String) (v : Bool)
  | signOutEv
  | toastEv (t : Toast)
  | navigateEv (route : String)
deriving DecidableEq

inductive FetchResult (α : Type) where
  | ok (data : Option α)
  | err
deriving DecidableEq

/-- The source destructures only the data field of the store response, so an
errored call and an empty result are indistinguishable to it. -/
def FetchResult.dataOf {α : Type} : FetchResult α → Option α
  | .ok d => d
  | .err => none

structure Store where
  profiles : List UserProfile
  pendingUsers : List PendingUser
  profileFetchFails : List String
  pendingFetchFails : List String
deriving DecidableEq

/-- The select on profiles with eq(id, uid).single(). -/
def fetchProfileRaw (s : Store) (uid : String) : FetchResult UserProfile :=
  if s.profileFetchFails.contains uid then .err
  else .ok (s.profiles.find? (fun p => p.id == uid))

/-- The select on pending_users with eq(id, uid).single(). -/
def fetchPendingRaw (s : Store) (uid : String) : FetchResult PendingUser :=
  if s.pendingFetchFails.contains uid then .err
  else .ok (s.pendingUsers.find? (fun p => p.id == uid))

/-- The update on profiles setting is_approved, filtered by eq(id, uid). -/
def updateProfileApproved (s : Store) (uid : String) (v : Bool) : Store :=
  { s with
    profiles := s.profiles.map
      (fun p => if p.id == uid then { p with is_approved := some v } else p) }

/-- The loadProfile closure of the useAuth hook, branch by branch. -/
def loadProfile (user : Option AuthUser) (store : Store) : List Event × Store :=
  match user with
  | none =>
      ([.setProfileEv none, .setIsApprovedEv none, .setIsPendingApprovalEv false],
       store)
  | some u =>
      match (fetchProfileRaw store u.id).dataOf with
      | none => ([.fetchProfileEv u.id, .setProfileEv none], store)
      | some d =>
          if d.is_approved = some false then
            ([.fetchProfileEv u.id, .setProfileEv (some d),
              .setIsApprovedEv (some false), .setIsPendingApprovalEv false,
              .signOutEv, .toastEv rejectedToast, .navigateEv "/login"], store)
          else if d.is_approved = some true then
            ([.fetchProfileEv u.id, .setProfileEv (some d),
              .setIsApprovedEv (some true), .setIsPendingApprovalEv false], store)
          else
            match (fetchPendingRaw store u.id).dataOf with
            | some pd =>
                if pd.status = "pending" then
                  ([.fetchProfileEv u.id, .setProfileEv (some d),
                    .fetchPendingEv u.id, .setIsApprovedEv (some false),
                    .setIsPendingApprovalEv true, .signOutEv,
                    .toastEv pendingToast, .navigateEv "/login"], store)
                else if pd.status = "approved" then
                  ([.fetchProfileEv u.id, .setProfileEv (some d),
                    .fetchPendingEv u.id, .setIsApprovedEv (some true),
                    .setIsPendingApprovalEv false, .updateProfileEv u.id true],
                   updateProfileApproved store u.id true)
                else if pd.status = "rejected" then
                  ([.fetchProfileEv u.id, .setProfileEv (some d),
                    .fetchPendingEv u.id, .setIsApprovedEv (some false),
                    .setIsPendingApprovalEv false, .updateProfileEv u.id false,
                    .signOutEv, .toastEv rejectedToast, .navigateEv "/login"],
                   updateProfileApproved store u.id false)
                else
                  ([.fetchProfileEv u.id, .setProfileEv (some d),
                    .fetchPendingEv u.id, .setIsApprovedEv (some true),
                    .setIsPendingApprovalEv false], store)
            | none =>
                ([.fetchProfileEv u.id, .setProfileEv (some d),
                  .fetchPendingEv u.id, .setIsApprovedEv (some true),
                  .setIsPendingApprovalEv false], store)

/-- The exposed snapshot held in component state. -/
structure AuthState where
  profile : Option UserProfile
  isApproved : Option Bool
  isPendingApproval : Bool
deriving DecidableEq

/-- Initial component state: profile null, isApproved null, pending false. -/
def initialAuthState : AuthState :=
  { profile := none, isApproved := none, isPendingApproval := false }

def applyEvent (s : AuthState) : Event → AuthState
  | .setProfileEv p => { s with profile := p }
  | .setIsApprovedEv v => { s with isApproved := v }
  | .setIsPendingApprovalEv v => { s with isPendingApproval := v }
  | _ => s

def applyEvents (es : List Event) (s : AuthState) : AuthState :=
  es.foldl applyEvent s

def Event.isSignOut : Event → Bool
  | .signOutEv => true
  | _ => false

def Event.isToast : Event → Bool
  | .toastEv _ => true
  | _ => false

def Event.isNavigate : Event → Bool
  | .navigateEv _ => true
  | _ => false

def Event.isWrite : Event → Bool
  | .updateProfileEv _ _ => true
  | _ => false

def Event.isPendingFetch : Event → Bool
  | .fetchPendingEv _ => true
  | _ => false

/-- Any call against the backing store or the auth collaborator. -/
def Event.isStoreCall : Event → Bool
  | .fetchProfileEv _ => true
  | .fetchPendingEv _ => true
  | .updateProfileEv _ _ => true
  | .signOutEv => true
  | _ => false

def signOutCount (es : List Event) : Nat :=
  (es.filter Event.isSignOut).length

inductive ApprovalStatus where
  | approved
  | rejected
  | pending
  | unknown
deriving DecidableEq

/-- Abstraction map from the snapshot to the ResolvedAuthState view of the
spec: isApproved null means unknown, true means approved, false together
with the pending flag means pending, false alone means rejected. -/
def AuthState.approvalStatus (s : AuthState) : ApprovalStatus :=
  match s.isApproved, s.isPendingApproval with
  | none, _ => .unknown
  | some true, _ => .approved
  | some false, true => .pending
  | some false, false => .rejected

/-! Shared concrete fixtures used by the witness theorems. -/

def uFix : AuthUser := { id := "u1", email := some "u1@example.com" }

def profileOf (b : Option Bool) : UserProfile :=
  { id := "u1", full_name := some "User One", department := none,
    email := some "u1@example.com", is_approved := b }

def storeWith (b : Option Bool) (pend : List PendingUser) : Store :=
  { profiles := [profileOf b], pendingUsers := pend,
    profileFetchFails := [], pendingFetchFails := [] }

/-- C8: when the identity is absent, the output snapshot is exactly
profile none, isApproved null (approvalStatus unknown), isPendingApproval
false, and no backing-store or auth-collaborator call of any kind occurs. -/
theorem C8_absent_identity (store : Store) (s : AuthState) :
    loadProfile none store =
      ([.setProfileEv none, .setIsApprovedEv none, .setIsPendingApprovalEv false],
       store) ∧
    applyEvents (loadProfile none store).1 s =
      { profile := none, isApproved := none, isPendingApproval := false } ∧
    (applyEvents (loadProfile none store).1 s).approvalStatus = .unknown ∧
    (loadProfile none store).1.filter Event.isStoreCall = [] ∧
    (loadProfile none store).2 = store := by
  refine ⟨rfl, ?_, ?_, rfl, rfl⟩ <;>
    simp [loadProfile, applyEvents, applyEvent, AuthState.approvalStatus]

/-- C1: when the fetched profile has is_approved explicitly false, the run
terminates in branch 2: it sets isApproved false and isPendingApproval false
(approvalStatus rejected), revokes the session exactly once, then emits the
rejection toast followed by the redirect to /login, never fetches the
pending_users record, performs no store write, and leaves the store
unchanged. -/
theorem C1_rejected_branch2 (u : AuthUser) (store : Store) (p : UserProfile)
    (s : AuthState)
    (hp : (fetchProfileRaw store u.id).dataOf = some p)
    (hr : p.is_approved = some false) :
    loadProfile (some u) store =
      ([.fetchProfileEv u.id, .setProfileEv (some p),
        .setIsApprovedEv (some false), .setIsPendingApprovalEv false,
        .signOutEv, .toastEv rejectedToast, .navigateEv "/login"], store) ∧
    signOutCount (loadProfile (some u) store).1 = 1 ∧
    (loadProfile (some u) store).1.filter Event.isPendingFetch = [] ∧
    (loadProfile (some u) store).1.filter Event.isWrite = [] ∧
    (applyEvents (loadProfile (some u) store).1 s).isApproved = some false ∧
    (applyEvents (loadProfile (some u) store).1 s).isPendingApproval = false ∧
    (applyEvents (loadProfile (some u) store).1 s).approvalStatus = .rejected := by
  have hEq : loadProfile (some u) store =
      ([.fetchProfileEv u.id, .setProfileEv (some p),
        .setIsApprovedEv (some false), .setIsPendingApprovalEv false,
        .signOutEv, .toastEv rejectedToast, .navigateEv "/login"], store) := by
    simp [loadProfile, hp, hr]
  refine ⟨hEq, ?_, ?_, ?_, ?_, ?_, ?_⟩ <;>
    simp [hEq, signOutCount, applyEvents, applyEvent, AuthState.approvalStatus,
      List.filter, Event.isSignOut, Event.isPendingFetch, Event.isWrite]

/-- C1 witness: the theorem applied to a store holding a profile with
is_approved false. -/
theorem C1_rejected_branch2_witness :
    (fetchProfileRaw (storeWith (some false) []) uFix.id).dataOf
        = some (profileOf (some false)) ∧
    (profileOf (some false)).is_approved = some false ∧
    (loadProfile (some uFix) (storeWith (some false) [])).1.filter
        Event.isPendingFetch = [] ∧
    signOutCount (loadProfile (some uFix) (storeWith (some false) [])).1 = 1 :=
  ⟨by decide, by decide,
    (C1_rejected_branch2 uFix (storeWith (some false) []) (profileOf (some false))
      initialAuthState (by decide) (by decide)).2.2.1,
    (C1_rejected_branch2 uFix (storeWith (some false) []) (profileOf (some false))
      initialAuthState (by decide) (by decide)).2.1⟩

/-- C5: profile present with is_approved unset and a pending_users record
with status pending: the run sets isApproved false together with
isPendingApproval true (approvalStatus pending), revokes the session exactly
once, emits the pending-approval toast followed by the redirect to /login,
and performs no write to the profiles record, leaving the store unchanged. -/
theorem C5_pending_status_branch (u : AuthUser) (store : Store)
    (p : UserProfile) (pd : PendingUser) (s : AuthState)
    (hp : (fetchProfileRaw store u.id).dataOf = some p)
    (hu : p.is_approved = none)
    (hpd : (fetchPendingRaw store u.id).dataOf = some pd)
    (hs : pd.status = "pending") :
    loadProfile (some u) store =
      ([.fetchProfileEv u.id, .setProfileEv (some p), .fetchPendingEv u.id,
        .setIsApprovedEv (some false), .setIsPendingApprovalEv true,
        .signOutEv, .toastEv pendingToast, .navigateEv "/login"], store) ∧
    signOutCount (loadProfile (some u) store).1 = 1 ∧
    (loadProfile (some u) store).1.filter Event.isWrite = [] ∧
    (loadProfile (some u) store).2 = store ∧
    (applyEvents (loadProfile (some u) store).1 s).isApproved = some false ∧
    (applyEvents (loadProfile (some u) store).1 s).isPendingApproval = true ∧
    (applyEvents (loadProfile (some u) store).1 s).approvalStatus = .pending := by
  have hEq : loadProfile (some u) store =
      ([.fetchProfileEv u.id, .setProfileEv (some p), .fetchPendingEv u.id,
        .setIsApprovedEv (some false), .setIsPendingApprovalEv true,
        .signOutEv, .toastEv pendingToast, .navigateEv "/login"], store) := by
    simp [loadProfile, hp, hu, hpd, hs]
  refine ⟨hEq, ?_, ?_, ?_, ?_, ?_, ?_⟩ <;>
    simp [hEq, signOutCount, applyEvents, applyEvent, AuthState.approvalStatus,
      List.filter, Event.isSignOut, Event.isWrite]

/-- C5 witness: the theorem applied to a store holding an unset-approval
profile and a pending registration with status pending. -/
theorem C5_pending_status_branch_witness :
    (fetchPendingRaw (storeWith none [⟨"u1", "pending"⟩]) uFix.id).dataOf
        = some ⟨"u1", "pending"⟩ ∧
    signOutCount
      (loadProfile (some uFix) (storeWith none [⟨"u1", "pending"⟩])).1 = 1 ∧
    (applyEvents
      (loadProfile (some uFix) (storeWith none [⟨"u1", "pending"⟩])).1
      initialAuthState).isPendingApproval = true :=
  ⟨by decide,
    (C5_pending_status_branch uFix (storeWith none [⟨"u1", "pending"⟩])
      (profileOf none) ⟨"u1", "pending"⟩ initialAuthState
      (by decide) (by decide) (by decide) (by decide)).2.1,
    (C5_pending_status_branch uFix (storeWith none [⟨"u1", "pending"⟩])
      (profileOf none) ⟨"u1", "pending"⟩ initialAuthState
      (by decide) (by decide) (by decide) (by decide)).2.2.2.2.2.1⟩

/-- C6: profile present with is_approved unset and a pending_users record
with status rejected: the run sets isApproved false and isPendingApproval
false (approvalStatus rejected), writes is_approved false to the profiles
record, then revokes the session exactly once, emits the rejection toast and
redirects to /login; the resulting store carries the best-effort write. -/
theorem C6_rejected_status_branch (u : AuthUser) (store : Store)
    (p : UserProfile) (pd : PendingUser) (s : AuthState)
    (hp : (fetchProfileRaw store u.id).dataOf = some p)
    (hu : p.is_approved = none)
    (hpd : (fetchPendingRaw store u.id).dataOf = some pd)
    (hs : pd.status = "rejected") :
    loadProfile (some u) store =
      ([.fetchProfileEv u.id, .setProfileEv (some p), .fetchPendingEv u.id,
        .setIsApprovedEv (some false), .setIsPendingApprovalEv false,
        .updateProfileEv u.id false, .signOutEv, .toastEv rejectedToast,
        .navigateEv "/login"], updateProfileApproved store u.id false) ∧
    signOutCount (loadProfile (some u) store).1 = 1 ∧
    (applyEvents (loadProfile (some u) store).1 s).isApproved = some false ∧
    (applyEvents (loadProfile (some u) store).1 s).isPendingApproval = false ∧
    (applyEvents (loadProfile (some u) store).1 s).approvalStatus = .rejected := by
  have hEq : loadProfile (some u) store =
      ([.fetchProfileEv u.id, .setProfileEv (some p), .fetchPendingEv u.id,
        .setIsApprovedEv (some false), .setIsPendingApprovalEv false,
        .updateProfileEv u.id false, .signOutEv, .toastEv rejectedToast,
        .navigateEv "/login"], updateProfileApproved store u.id false) := by
    simp [loadProfile, hp, hu, hpd, hs]
  refine ⟨hEq, ?_, ?_, ?_, ?_⟩ <;>
    simp [hEq, signOutCount, applyEvents, applyEvent, AuthState.approvalStatus,
      List.filter, Event.isSignOut]

/-- C6 witness: the theorem applied to a store holding an unset-approval
profile and a pending registration with status rejected. -/
theorem C6_rejected_status_branch_witness :
    (fetchPendingRaw (storeWith none [⟨"u1", "rejected"⟩]) uFix.id).dataOf
        = some ⟨"u1", "rejected"⟩ ∧
    (loadProfile (some uFix) (storeWith none [⟨"u1", "rejected"⟩])).2
        = updateProfileApproved (storeWith none [⟨"u1", "rejected"⟩]) uFix.id false ∧
    signOutCount
      (loadProfile (some uFix) (storeWith none [⟨"u1", "rejected"⟩])).1 = 1 :=
  ⟨by decide,
    congrArg Prod.snd
      (C6_rejected_status_branch uFix (storeWith none [⟨"u1", "rejected"⟩])
        (profileOf none) ⟨"u1", "rejected"⟩ initialAuthState
        (by decide) (by decide) (by decide) (by decide)).1,
    (C6_rejected_status_branch uFix (storeWith none [⟨"u1", "rejected"⟩])
      (profileOf none) ⟨"u1", "rejected"⟩ initialAuthState
      (by decide) (by decide) (by decide) (by decide)).2.1⟩

/-- C7: profile present with is_approved unset and no pending_users record:
the run takes the grandfather branch, setting isApproved true and
isPendingApproval false (approvalStatus approved), with no write, no
session revoke, no toast, no navigation, and the store left unchanged. -/
theorem C7_grandfather_no_effects (u : AuthUser) (store : Store)
    (p : UserProfile) (s : AuthState)
    (hp : (fetchProfileRaw store u.id).dataOf = some p)
    (hu : p.is_approved = none)
    (hpd : (fetchPendingRaw store u.id).dataOf = none) :
    loadProfile (some u) store =
      ([.fetchProfileEv u.id, .setProfileEv (some p), .fetchPendingEv u.id,
        .setIsApprovedEv (some true), .setIsPendingApprovalEv false], store) ∧
    (loadProfile (some u) store).1.filter Event.isWrite = [] ∧
    (loadProfile (some u) store).1.filter Event.isSignOut = [] ∧
    (loadProfile (some u) store).1.filter Event.isToast = [] ∧
    (loadProfile (some u) store).1.filter Event.isNavigate = [] ∧
    (loadProfile (some u) store).2 = store ∧
    (applyEvents (loadProfile (some u) store).1 s).isApproved = some true ∧
    (applyEvents (loadProfile (some u) store).1 s).isPendingApproval = false ∧
    (applyEvents (loadProfile (some u) store).1 s).approvalStatus = .approved := by
  have hEq : loadProfile (some u) store =
      ([.fetchProfileEv u.id, .setProfileEv (some p), .fetchPendingEv u.id,
        .setIsApprovedEv (some true), .setIsPendingApprovalEv false], store) := by
    simp [loadProfile, hp, hu, hpd]
  refine ⟨hEq, ?_, ?_, ?_, ?_, ?_, ?_, ?_, ?_⟩ <;>
    simp [hEq, applyEvents, applyEvent, AuthState.approvalStatus, List.filter,
      Event.isWrite, Event.isSignOut, Event.isToast, Event.isNavigate]

/-- C7 witness: the theorem applied to a store holding an unset-approval
profile and an empty pending_users table. -/
theorem C7_grandfather_no_effects_witness :
    (fetchPendingRaw (storeWith none []) uFix.id).dataOf = none ∧
    (loadProfile (some uFix) (storeWith none [])).2 = storeWith none [] ∧
    (applyEvents (loadProfile (some uFix) (storeWith none [])).1
      initialAuthState).isApproved = some true :=
  ⟨by decide,
    (C7_grandfather_no_effects uFix (storeWith none []) (profileOf none)
      initialAuthState (by decide) (by decide) (by decide)).2.2.2.2.2.1,
    (C7_grandfather_no_effects uFix (storeWith none []) (profileOf none)
      initialAuthState (by decide) (by decide) (by decide)).2.2.2.2.2.2.1⟩

/-- C10: profile present with is_approved unset and a pending_users record
whose status is none of pending, approved or rejected: the run falls
through to the grandfather outcome, setting isApproved true and
isPendingApproval false, with no write, no session revoke, no toast, and
the store left unchanged (default allow for unrecognized status values). -/
theorem C10_unknown_status_default_allow (u : AuthUser) (store : Store)
    (p : UserProfile) (pd : PendingUser) (s : AuthState)
    (hp : (fetchProfileRaw store u.id).dataOf = some p)
    (hu : p.is_approved = none)
    (hpd : (fetchPendingRaw store u.id).dataOf = some pd)
    (h1 : pd.status ≠ "pending") (h2 : pd.status ≠ "approved")
    (h3 : pd.status ≠ "rejected") :
    loadProfile (some u) store =
      ([.fetchProfileEv u.id, .setProfileEv (some p), .fetchPendingEv u.id,
        .setIsApprovedEv (some true), .setIsPendingApprovalEv false], store) ∧
    (loadProfile (some u) store).1.filter Event.isWrite = [] ∧
    (loadProfile (some u) store).1.filter Event.isSignOut = [] ∧
    (loadProfile (some u) store).1.filter Event.isToast = [] ∧
    (loadProfile (some u) store).2 = store ∧
    (applyEvents (loadProfile (some u) store).1 s).isApproved = some true ∧
    (applyEvents (loadProfile (some u) store).1 s).isPendingApproval = false := by
  have hEq : loadProfile (some u) store =
      ([.fetchProfileEv u.id, .setProfileEv (some p), .fetchPendingEv u.id,
        .setIsApprovedEv (some true), .setIsPendingApprovalEv false], store) := by
    simp [loadProfile, hp, hu, hpd, h1, h2, h3]
  refine ⟨hEq, ?_, ?_, ?_, ?_, ?_, ?_⟩ <;>
    simp [hEq, applyEvents, applyEvent, List.filter,
      Event.isWrite, Event.isSignOut, Event.isToast]

/-- C10 witness: the theorem applied to a pending registration whose status
field holds the unrecognized value on_hold. -/
theorem C10_unknown_status_default_allow_witness :
    (fetchPendingRaw (storeWith none [⟨"u1", "on_hold"⟩]) uFix.id).dataOf
        = some ⟨"u1", "on_hold"⟩ ∧
    (loadProfile (some uFix) (storeWith none [⟨"u1", "on_hold"⟩])).1.filter
        Event.isSignOut = [] ∧
    (applyEvents
      (loadProfile (some uFix) (storeWith none [⟨"u1", "on_hold"⟩])).1
      initialAuthState).isApproved = some true :=
  ⟨by decide,
    (C10_unknown_status_default_allow uFix (storeWith none [⟨"u1", "on_hold"⟩])
      (profileOf none) ⟨"u1", "on_hold"⟩ initialAuthState
      (by decide) (by decide) (by decide) (by decide) (by decide)
      (by decide)).2.2.1,
    (C10_unknown_status_default_allow uFix (storeWith none [⟨"u1", "on_hold"⟩])
      (profileOf none) ⟨"u1", "on_hold"⟩ initialAuthState
      (by decide) (by decide) (by decide) (by decide) (by decide)
      (by decide)).2.2.2.2.2.1⟩

/-- C4: a failed or empty fetch surfaces to the code as a null data value
(FetchResult.dataOf maps both err and ok none to none), and the run then
proceeds down the corresponding absent branch without any toast: a null
profile fetch ends the run after setting profile none (approval left
unresolved, nothing else set), and a null pending fetch with an
unset-approval profile falls through to the grandfather branch; in both
cases the run returns a well-defined event list and unchanged store rather
than failing. -/
theorem C4_fetch_failure_absent_branch (u : AuthUser) (store : Store) :
    ((fetchProfileRaw store u.id).dataOf = none →
      loadProfile (some u) store =
        ([.fetchProfileEv u.id, .setProfileEv none], store) ∧
      (loadProfile (some u) store).1.filter Event.isToast = [] ∧
      (loadProfile (some u) store).1.filter Event.isWrite = []) ∧
    (∀ p : UserProfile, (fetchProfileRaw store u.id).dataOf = some p →
      p.is_approved = none → (fetchPendingRaw store u.id).dataOf = none →
      loadProfile (some u) store =
        ([.fetchProfileEv u.id, .setProfileEv (some p), .fetchPendingEv u.id,
          .setIsApprovedEv (some true), .setIsPendingApprovalEv false],
         store) ∧
      (loadProfile (some u) store).1.filter Event.isToast = []) := by
  constructor
  · intro hp
    have hEq : loadProfile (some u) store =
        ([.fetchProfileEv u.id, .setProfileEv none], store) := by
      simp [loadProfile, hp]
    refine ⟨hEq, ?_, ?_⟩ <;>
      simp [hEq, List.filter, Event.isToast, Event.isWrite]
  · intro p hp hu hpd
    have hEq : loadProfile (some u) store =
        ([.fetchProfileEv u.id, .setProfileEv (some p), .fetchPendingEv u.id,
          .setIsApprovedEv (some true), .setIsPendingApprovalEv false],
         store) := by
      simp [loadProfile, hp, hu, hpd]
    exact ⟨hEq, by simp [hEq, List.filter, Event.isToast]⟩

/-- C4 witness: the theorem applied to a store whose profiles select errors
for the identity, and to a store whose pending_users select errors. -/
theorem C4_fetch_failure_absent_branch_witness :
    (fetchProfileRaw
        { profiles := [profileOf none], pendingUsers := [],
          profileFetchFails := ["u1"], pendingFetchFails := [] }
        uFix.id).dataOf = none ∧
    loadProfile (some uFix)
        { profiles := [profileOf none], pendingUsers := [],
          profileFetchFails := ["u1"], pendingFetchFails := [] } =
      ([.fetchProfileEv uFix.id, .setProfileEv none],
       { profiles := [profileOf none], pendingUsers := [],
         profileFetchFails := ["u1"], pendingFetchFails := [] }) ∧
    (loadProfile (some uFix)
        { profiles := [profileOf none], pendingUsers := [⟨"u1", "pending"⟩],
          profileFetchFails := [], pendingFetchFails := ["u1"] }).1.filter
        Event.isToast = [] :=
  ⟨by decide,
    ((C4_fetch_failure_absent_branch uFix
        { profiles := [profileOf none], pendingUsers := [],
          profileFetchFails := ["u1"], pendingFetchFails := [] }).1
      (by decide)).1,
    ((C4_fetch_failure_absent_branch uFix
        { profiles := [profileOf none], pendingUsers := [⟨"u1", "pending"⟩],
          profileFetchFails := [], pendingFetchFails := ["u1"] }).2
      (profileOf none) (by decide) (by decide) (by decide)).2⟩

/-- C9: invariant of the exposed snapshot: if the starting snapshot has the
pending flag only together with isApproved false, then after replaying any
completed run the snapshot still has isPendingApproval true only together
with isApproved false; the pending branch is the only one setting the flag,
and every branch that sets isApproved true or resets it to null also clears
the flag. -/
theorem C9_pending_flag_invariant (user : Option AuthUser) (store : Store)
    (s : AuthState)
    (h : s.isPendingApproval = true → s.isApproved = some false) :
    (applyEvents (loadProfile user store).1 s).isPendingApproval = true →
      (applyEvents (loadProfile user store).1 s).isApproved = some false := by
  cases user with
  | none => simp [loadProfile, applyEvents, applyEvent]
  | some u =>
      cases hd : (fetchProfileRaw store u.id).dataOf with
      | none => simpa [loadProfile, hd, applyEvents, applyEvent] using h
      | some d =>
          by_cases hf : d.is_approved = some false
          · simp [loadProfile, hd, hf, applyEvents, applyEvent]
          · by_cases ht : d.is_approved = some true
            · simp [loadProfile, hd, hf, ht, applyEvents, applyEvent]
            · cases hpd : (fetchPendingRaw store u.id).dataOf with
              | none => simp [loadProfile, hd, hf, ht, hpd, applyEvents, applyEvent]
              | some pd =>
                  by_cases h1 : pd.status = "pending"
                  · simp [loadProfile, hd, hf, ht, hpd, h1, applyEvents, applyEvent]
                  · by_cases h2 : pd.status = "approved"
                    · simp [loadProfile, hd, hf, ht, hpd, h1, h2, applyEvents,
                        applyEvent]
                    · by_cases h3 : pd.status = "rejected"
                      · simp [loadProfile, hd, hf, ht, hpd, h1, h2, h3,
                          applyEvents, applyEvent]
                      · simp [loadProfile, hd, hf, ht, hpd, h1, h2, h3,
                          applyEvents, applyEvent]

/-- C9 witness: the invariant instantiated on the initial snapshot and the
pending-registration fixture. -/
theorem C9_pending_flag_invariant_witness :
    (initialAuthState.isPendingApproval = true →
      initialAuthState.isApproved = some false) ∧
    ((applyEvents
        (loadProfile (some uFix) (storeWith none [⟨"u1", "pending"⟩])).1
        initialAuthState).isPendingApproval = true →
      (applyEvents
        (loadProfile (some uFix) (storeWith none [⟨"u1", "pending"⟩])).1
        initialAuthState).isApproved = some false) :=
  ⟨by decide,
    C9_pending_flag_invariant (some uFix) (storeWith none [⟨"u1", "pending"⟩])
      initialAuthState (by decide)⟩

/-- Finding a row by id after the id-filtered update rewrites the found row
with the updated is_approved value. -/
lemma find?_map_update (l : List UserProfile) (uid : String) (v : Bool)
    (p : UserProfile)
    (h : l.find? (fun q => q.id == uid) = some p) :
    (l.map
        (fun q => if q.id == uid then { q with is_approved := some v } else q)).find?
        (fun q => q.id == uid) = some { p with is_approved := some v } := by
  induction l with
  | nil => simp at h
  | cons a t ih =>
      by_cases ha : a.id = uid
      · have hb : (a.id == uid) = true := by simp [ha]
        have h' : a = p := by
          rw [List.find?_cons_of_pos (p := fun q : UserProfile => q.id == uid) _ hb] at h
          exact Option.some.inj h
        subst h'
        rw [List.map_cons, if_pos hb]
        exact List.find?_cons_of_pos (p := fun q : UserProfile => q.id == uid) _ hb
      · have hb : (a.id == uid) = false := by simp [ha]
        have hnb : ¬((a.id == uid) = true) := by simp [hb]
        rw [List.find?_cons_of_neg (p := fun q : UserProfile => q.id == uid) _ hnb] at h
        rw [List.map_cons, if_neg hnb,
          List.find?_cons_of_neg (p := fun q : UserProfile => q.id == uid) _ hnb]
        exact ih h

/-- A profile fetched with data after the best-effort update carries the
written is_approved value. -/
lemma fetchProfile_after_update (store : Store) (uid : String) (v : Bool)
    (p : UserProfile)
    (hp : (fetchProfileRaw store uid).dataOf = some p) :
    (fetchProfileRaw (updateProfileApproved store uid v) uid).dataOf
      = some { p with is_approved := some v } := by
  by_cases hc : store.profileFetchFails.contains uid = true
  · rw [fetchProfileRaw, if_pos hc] at hp
    simp [FetchResult.dataOf] at hp
  · rw [fetchProfileRaw, if_neg hc] at hp
    simp only [FetchResult.dataOf] at hp
    have hc2 : (updateProfileApproved store uid v).profileFetchFails.contains uid
        = true → False := hc
    rw [fetchProfileRaw, if_neg hc2]
    simp only [FetchResult.dataOf, updateProfileApproved]
    exact find?_map_update _ _ _ _ hp

/-- C2: profile present with is_approved unset and a pending_users record
with status approved: the run reports approved (isApproved true,
isPendingApproval false), writes is_approved true to the profiles record
without revoking the session, and the write is a stable fixed point: a
second run over the resulting store fetches the updated profile, takes the
is_approved true branch directly, and reaches the same approved outcome
with no further store mutation. -/
theorem C2_pending_approved_fixed_point (u : AuthUser) (store : Store)
    (p : UserProfile) (pd : PendingUser) (s : AuthState)
    (hp : (fetchProfileRaw store u.id).dataOf = some p)
    (hu : p.is_approved = none)
    (hpd : (fetchPendingRaw store u.id).dataOf = some pd)
    (hs : pd.status = "approved") :
    loadProfile (some u) store =
      ([.fetchProfileEv u.id, .setProfileEv (some p), .fetchPendingEv u.id,
        .setIsApprovedEv (some true), .setIsPendingApprovalEv false,
        .updateProfileEv u.id true], updateProfileApproved store u.id true) ∧
    signOutCount (loadProfile (some u) store).1 = 0 ∧
    (applyEvents (loadProfile (some u) store).1 s).isApproved = some true ∧
    (applyEvents (loadProfile (some u) store).1 s).isPendingApproval = false ∧
    (applyEvents (loadProfile (some u) store).1 s).approvalStatus = .approved ∧
    (fetchProfileRaw (loadProfile (some u) store).2 u.id).dataOf
        = some { p with is_approved := some true } ∧
    loadProfile (some u) (loadProfile (some u) store).2 =
      ([.fetchProfileEv u.id,
        .setProfileEv (some { p with is_approved := some true }),
        .setIsApprovedEv (some true), .setIsPendingApprovalEv false],
       (loadProfile (some u) store).2) ∧
    (applyEvents (loadProfile (some u) (loadProfile (some u) store).2).1
        s).approvalStatus = .approved := by
  have hEq : loadProfile (some u) store =
      ([.fetchProfileEv u.id, .setProfileEv (some p), .fetchPendingEv u.id,
        .setIsApprovedEv (some true), .setIsPendingApprovalEv false,
        .updateProfileEv u.id true], updateProfileApproved store u.id true) := by
    simp [loadProfile, hp, hu, hpd, hs]
  have hp2 : (fetchProfileRaw (updateProfileApproved store u.id true) u.id).dataOf
      = some { p with is_approved := some true } :=
    fetchProfile_after_update store u.id true p hp
  have hEq2 : loadProfile (some u) (updateProfileApproved store u.id true) =
      ([.fetchProfileEv u.id,
        .setProfileEv (some { p with is_approved := some true }),
        .setIsApprovedEv (some true), .setIsPendingApprovalEv false],
       updateProfileApproved store u.id true) := by
    simp [loadProfile, hp2]
  refine ⟨hEq, ?_, ?_, ?_, ?_, ?_, ?_, ?_⟩ <;>
    simp [hEq, hEq2, hp2, signOutCount, applyEvents, applyEvent,
      AuthState.approvalStatus, List.filter, Event.isSignOut]

/-- C2 witness: the theorem applied to a store holding an unset-approval
profile and a pending registration with status approved. -/
theorem C2_pending_approved_fixed_point_witness :
    (fetchPendingRaw (storeWith none [⟨"u1", "approved"⟩]) uFix.id).dataOf
        = some ⟨"u1", "approved"⟩ ∧
    signOutCount
      (loadProfile (some uFix) (storeWith none [⟨"u1", "approved"⟩])).1 = 0 ∧
    (fetchProfileRaw
        (loadProfile (some uFix) (storeWith none [⟨"u1", "approved"⟩])).2
        uFix.id).dataOf = some (profileOf (some true)) ∧
    (applyEvents
        (loadProfile (some uFix)
          (loadProfile (some uFix) (storeWith none [⟨"u1", "approved"⟩])).2).1
        initialAuthState).approvalStatus = .approved :=
  ⟨by decide,
    (C2_pending_approved_fixed_point uFix (storeWith none [⟨"u1", "approved"⟩])
      (profileOf none) ⟨"u1", "approved"⟩ initialAuthState
      (by decide) (by decide) (by decide) (by decide)).2.1,
    (C2_pending_approved_fixed_point uFix (storeWith none [⟨"u1", "approved"⟩])
      (profileOf none) ⟨"u1", "approved"⟩ initialAuthState
      (by decide) (by decide) (by decide) (by decide)).2.2.2.2.2.1,
    (C2_pending_approved_fixed_point uFix (storeWith none [⟨"u1", "approved"⟩])
      (profileOf none) ⟨"u1", "approved"⟩ initialAuthState
      (by decide) (by decide) (by decide) (by decide)).2.2.2.2.2.2.2⟩

/-! Race scenario of the spec: identity A triggers a run, the run suspends
at its first store await, identity B then triggers its own run which
completes and commits; the suspended run for A resumes afterwards.  The
loadProfile closure of the source contains no cleanup and no re-check of
the current identity before its setter calls, so the resumed run commits
its setters unconditionally, after those of the run for B. -/

def userA : AuthUser := { id := "user-a", email := some "a@example.com" }

def userB : AuthUser := { id := "user-b", email := some "b@example.com" }

def profileA : UserProfile :=
  { id := "user-a", full_name := some "User A", department := none,
    email := some "a@example.com", is_approved := some true }

def profileB : UserProfile :=
  { id := "user-b", full_name := some "User B", department := none,
    email := some "b@example.com", is_approved := some true }

def raceStore : Store :=
  { profiles := [profileA, profileB], pendingUsers := [],
    profileFetchFails := [], pendingFetchFails := [] }

/-- The snapshot after the interleaving: the run for b commits first, then
the stale run for a commits over it, exactly as the guard-free source
setter calls do. -/
def staleInterleaving (a b : Option AuthUser) (store : Store)
    (s : AuthState) : AuthState :=
  applyEvents (loadProfile a store).1 (applyEvents (loadProfile b store).1 s)

/-- C3: the claim fails on the code.  The loadProfile effect has no cleanup
function and never re-checks the triggering identity before committing its
computed output, so in the race where the run for identity A is still
awaiting the store when identity B triggers, the stale result of A is
committed after the result of B: the final exposed profile is profileA,
not profileB. -/
theorem C3_stale_result_applied :
    (staleInterleaving (some userA) (some userB) raceStore
        initialAuthState).profile = some profileA ∧
    (staleInterleaving (some userA) (some userB) raceStore
        initialAuthState).profile ≠ some profileB ∧
    (staleInterleaving (some userB) (some userA) raceStore
        initialAuthState).profile = some profileB := by
  refine ⟨?_, ?_, ?_⟩ <;> decide
